import Mathlib

/-!
Verification of the c-util/c-variant GVariant serialization library.

This file gives a shallow embedding of the core algorithms of the library
(src/src/c-variant.c, src/src/c-variant-reader.c, src/src/c-variant-writer.c)
and proves properties of them.  Machine integers (`size_t`, `uint8_t`, ...)
are modelled as `Nat` with explicit truncation (`% 2^w`) where the C code can
overflow; byte buffers are lists of naturals (each byte `< 256`); scatter/
gather iovec arrays are lists of byte lists; C functions returning
`0`-or-negative-errno are modelled as functions returning `Int` (or an
inductive result type mirroring the documented return-value convention).

Definitions keep the C source's names.  Where a C `while` loop walks the
iovec array guarded by an `assert`, the Lean port recurses on the quantity
the loop decreases (or on an explicit fuel equal to the loop's asserted
bound) and returns its current state if the assert would fail; the theorems
below only evaluate these functions on inputs where the asserts hold.
-/

set_option maxRecDepth 100000

/- Linux errno values used by the library (it includes <errno.h>). -/

def ENOMEM : Nat := 12
def EFAULT : Nat := 14
def EFBIG : Nat := 27
def ELOOP : Nat := 40
def EBADRQC : Nat := 56
def ENOTUNIQ : Nat := 76
def EMSGSIZE : Nat := 90
def ENOBUFS : Nat := 105
def EMEDIUMTYPE : Nat := 124

/- Compile-time limits from org.bus1/c-variant.h. -/

def C_VARIANT_MAX_SIGNATURE : Nat := 65535
def C_VARIANT_MAX_LEVEL : Nat := 255
def C_VARIANT_MAX_VARG : Nat := 16

/-- ALIGN_TO(_val, _alignment) = ((_val + (_alignment) - 1) & ~((_alignment) - 1)).
The macro is only ever used with power-of-two alignments, for which the
bit-trick equals rounding up to the next multiple: we express the masking of
the low bits as subtracting the remainder. -/
def ALIGN_TO (val alignment : Nat) : Nat :=
  (val + alignment - 1) - (val + alignment - 1) % alignment

/-- x & ~((1 << a) - 1): clear the low `a` bits of `x`. -/
def clearLowBits (x a : Nat) : Nat := x - x % 2 ^ a

/-
 * Elements (c-variant.c, c_variant_elements table)
-/

structure CVariantElement where
  alignment : Nat
  valid : Bool
  real : Bool
  basic : Bool
  fixed : Bool
deriving DecidableEq, Repr

/-- The 256-entry element lookup table of c-variant.c, as a function on the
type character. -/
def c_variant_element : Char → CVariantElement
  | 'b' => ⟨0, true, true, true, true⟩
  | 'y' => ⟨0, true, true, true, true⟩
  | 'n' => ⟨1, true, true, true, true⟩
  | 'q' => ⟨1, true, true, true, true⟩
  | 'i' => ⟨2, true, true, true, true⟩
  | 'u' => ⟨2, true, true, true, true⟩
  | 'x' => ⟨3, true, true, true, true⟩
  | 't' => ⟨3, true, true, true, true⟩
  | 'h' => ⟨2, true, true, true, true⟩
  | 'd' => ⟨3, true, true, true, true⟩
  | 's' => ⟨0, true, true, true, false⟩
  | 'o' => ⟨0, true, true, true, false⟩
  | 'g' => ⟨0, true, true, true, false⟩
  | 'v' => ⟨3, true, true, false, false⟩
  | 'm' => ⟨0, true, true, false, false⟩
  | 'a' => ⟨0, true, true, false, false⟩
  | '(' => ⟨0, true, true, false, false⟩
  | ')' => ⟨0, true, true, false, false⟩
  | '{' => ⟨0, true, true, false, false⟩
  | '}' => ⟨0, true, true, false, false⟩
  | 'r' => ⟨0, true, false, false, false⟩
  | 'e' => ⟨0, true, false, false, false⟩
  | '?' => ⟨0, true, false, false, false⟩
  | '*' => ⟨0, true, false, false, false⟩
  | _   => ⟨0, false, false, false, false⟩

/-
 * Signatures (c-variant.c, c_variant_signature_next)
-/

/-- The 2-bit `state` field of CVariantSignatureState. -/
inductive SigSt
  | bound
  | tuple
  | pair0
  | pair1
deriving DecidableEq, Repr

structure CVariantSignatureState where
  state : SigSt
  alignment : Nat
  aligned : Nat
deriving DecidableEq, Repr

/-- The type information returned by the signature analyzer (CVariantType). -/
structure CVariantType where
  alignment : Nat
  size : Nat
  bound_size : Nat
  n_levels : Nat
  n_type : Nat
  type : List Char
deriving DecidableEq, Repr

instance : Inhabited CVariantType := ⟨⟨0, 0, 0, 0, 0, []⟩⟩

/-- Result of c_variant_signature_next: `1` with info, `0` for the empty
signature, or a negative error code. -/
inductive SigResult
  | parsed (info : CVariantType)
  | empty
  | err (code : Int)
deriving DecidableEq, Repr

/-- The `while (state.state == C_VARIANT_SIGNATURE_STATE_BOUND)` loop that
implicitly closes bound containers when a leaf was parsed, followed by the
pair-advance step.  Returns the new stack, state, fixed_size, end_of_pair
and bound_size.  The `[]` stack case is unreachable: a bound state is only
ever entered by pushing the enclosing state. -/
def sigLeaf (size : Nat) :
    List CVariantSignatureState → CVariantSignatureState → Bool → Bool → Nat →
    List CVariantSignatureState × CVariantSignatureState × Bool × Bool × Nat
  | stack, st, fixed, eop, bound =>
    if st.state = SigSt.bound then
      match stack with
      | [] => ([], st, fixed, eop, bound)
      | saved :: rest =>
        let bound := if fixed then size else 0
        let saved := { saved with alignment := max saved.alignment st.alignment }
        sigLeaf size rest saved false eop bound
    else
      if st.state = SigSt.pair0 then
        (stack, { st with state := SigSt.pair1 }, fixed, eop, bound)
      else if st.state = SigSt.pair1 then
        (stack, st, fixed, true, bound)
      else
        (stack, st, fixed, eop, bound)

/-- The main `for (i = 0; i < n_signature; ++i)` loop of
c_variant_signature_next.  `signature` is the full input (for the returned
`type` field), `prev` is `signature[i-1]` (only consulted for the unit-type
special case, which is guarded so that `i >= 1` holds there), the stack's
head is the innermost saved state and `stack.length` is the C `level`. -/
def sigLoop (signature : List Char) (max_level : Nat) :
    List Char → Nat → Char →
    List CVariantSignatureState → CVariantSignatureState →
    Nat → Nat → Bool → Bool → SigResult
  | [], i, _, _, _, _, _, _, _ =>
    if i ≠ 0 then .err (-(EMEDIUMTYPE : Int)) else .empty
  | c :: rest, i, prev, stack, st, size, known, fixed, eop =>
    let element := c_variant_element c
    if ¬ element.real then .err (-(EMEDIUMTYPE : Int))
    else if c = 'm' ∨ c = 'a' ∨ c = '(' ∨ c = '{' then
      if stack.length ≥ max_level then .err (-(ELOOP : Int))
      else if eop ∨ st.state = SigSt.pair0 then .err (-(EMEDIUMTYPE : Int))
      else
        let stack := st :: stack
        let known := max known stack.length
        let newState : SigSt :=
          if c = '(' then .tuple else if c = '{' then .pair0 else .bound
        let t := ALIGN_TO size 8
        let st : CVariantSignatureState := ⟨newState, 0, t - size⟩
        sigLoop signature max_level rest (i + 1) c stack st t known fixed eop
    else if c = ')' ∨ c = '}' then
      if c = ')' ∧ stack.length = 0 then .err (-(EMEDIUMTYPE : Int))
      else if c = ')' ∧ st.state ≠ SigSt.tuple then .err (-(EMEDIUMTYPE : Int))
      else if c = '}' ∧ ¬ eop then .err (-(EMEDIUMTYPE : Int))
      else
        let size := if c = ')' ∧ prev = '(' then size + 1 else size
        let size :=
          if fixed then
            ALIGN_TO (size - clearLowBits st.aligned st.alignment) (2 ^ st.alignment)
          else size
        match stack with
        | [] => .err (-(EMEDIUMTYPE : Int)) -- unreachable: guarded above
        | saved :: stack =>
          let st := { saved with alignment := max saved.alignment st.alignment }
          let (stack, st, fixed, eop, bound) := sigLeaf size stack st fixed false 0
          if stack.length = 0 then
            .parsed ⟨st.alignment, if fixed then size else 0, bound, known, i + 1, signature⟩
          else
            sigLoop signature max_level rest (i + 1) c stack st size known fixed eop
    else if c = 'b' ∨ c = 'y' ∨ c = 'n' ∨ c = 'q' ∨ c = 'i' ∨ c = 'u' ∨ c = 'x' ∨
            c = 't' ∨ c = 'h' ∨ c = 'd' ∨ c = 's' ∨ c = 'o' ∨ c = 'g' ∨ c = 'v' then
      if eop then .err (-(EMEDIUMTYPE : Int))
      else if st.state = SigSt.pair0 ∧ ¬ element.basic then .err (-(EMEDIUMTYPE : Int))
      else
        let fixed := fixed && element.fixed
        let st := { st with alignment := max st.alignment element.alignment }
        let size :=
          if fixed then ALIGN_TO size (2 ^ element.alignment) + 2 ^ element.alignment
          else size
        let (stack, st, fixed, eop, bound) := sigLeaf size stack st fixed eop 0
        if stack.length = 0 then
          .parsed ⟨st.alignment, if fixed then size else 0, bound, known, i + 1, signature⟩
        else
          sigLoop signature max_level rest (i + 1) c stack st size known fixed eop
    else
      .err (-(EMEDIUMTYPE : Int)) -- default: unreachable after the `real` test

/-- c_variant_signature_next: parse the next type in a signature.  The C
function takes `(signature, n_signature)`; we model the input as the list of
its first `n_signature` characters. -/
def c_variant_signature_next (signature : List Char) : SigResult :=
  if signature.length > C_VARIANT_MAX_SIGNATURE then .err (-(EMSGSIZE : Int))
  else
    let max_level := min C_VARIANT_MAX_LEVEL signature.length
    sigLoop signature max_level signature 0 ' ' [] ⟨SigSt.tuple, 0, 0⟩ 0 0 true false

/-- c_variant_signature_one: like signature_next, but the parsed type must
cover the input signature exactly. -/
def c_variant_signature_one (signature : List Char) : Except Int CVariantType :=
  match c_variant_signature_next signature with
  | .err e => .error e
  | .empty => .error (-(EMEDIUMTYPE : Int))
  | .parsed info =>
    if info.n_type ≠ signature.length then .error (-(EMEDIUMTYPE : Int))
    else .ok info

/-
 * Word Handling (c-variant-writer.c c_variant_word_store,
 * c-variant-reader.c c_variant_word_fetch, c-variant-private.h
 * c_variant_word_size)
-/

/-- Little-endian byte decomposition: `storeLE n v` is the list of the `n`
little-endian bytes of `v` (the semantics of `htoleN` followed by `memcpy`). -/
def storeLE : Nat → Nat → List Nat
  | 0, _ => []
  | n + 1, v => v % 256 :: storeLE n (v / 256)

/-- Little-endian byte recomposition: value of the first `n` bytes of `addr`
(the semantics of `memcpy` followed by `leNtoh`); missing bytes read as 0. -/
def fetchLE : Nat → List Nat → Nat
  | 0, _ => 0
  | n + 1, addr => addr.headD 0 + 256 * fetchLE n (addr.tail)

/-- c_variant_word_store (c-variant-writer.c): write one word of width
`1 << wordsize` little-endian.  The casts `(uintN_t)value` truncate, hence
the explicit `% 2^(8 * 2^wordsize)`.  The `default:` branch is an
`assert(0)`, modelled as writing nothing. -/
def c_variant_word_store (wordsize value : Nat) : List Nat :=
  match wordsize with
  | 3 => storeLE 8 (value % 2 ^ 64)
  | 2 => storeLE 4 (value % 2 ^ 32)
  | 1 => storeLE 2 (value % 2 ^ 16)
  | 0 => [value % 2 ^ 8]
  | _ => []

/-- c_variant_word_fetch (c-variant-reader.c): read one word of width
`1 << wordsize` little-endian from `addr`.  The `default:` branch is an
`assert(0); return 0`. -/
def c_variant_word_fetch (addr : List Nat) (wordsize : Nat) : Nat :=
  match wordsize with
  | 3 => fetchLE 8 addr
  | 2 => fetchLE 4 addr
  | 1 => fetchLE 2 addr
  | 0 => addr.headD 0
  | _ => 0

/-- c_variant_word_size (c-variant-private.h): minimal wordsize for a
container of `base` payload bytes plus `extra` framing offsets. -/
def c_variant_word_size (base extra : Nat) : Nat :=
  if base + extra ≤ 255 then 0
  else if base + extra * 2 ≤ 65535 then 1
  else if base + extra * 4 ≤ 4294967295 then 2
  else 3

/-
 * Poison (c-variant.c, c_variant_poison_internal / c_variant_return_poison)
 *
 * `cv->poison` is a `uint8_t`; storing `-poison` truncates mod 256.  The
 * `c_variant_poison` macro statically asserts the code is negative and its
 * magnitude fits the field.
-/

/-- c_variant_poison_internal: latch the first error code.  Takes the current
`cv->poison` field and the (negative) candidate code; returns the new field
value and the function's return value. -/
def c_variant_poison_internal (poison : Nat) (code : Int) : Nat × Int :=
  if poison ≠ 0 then (poison, -(poison : Int))
  else
    let p := (-code).toNat % 256
    (p, -(p : Int))

/-- c_variant_return_poison for a non-NULL variant: `-cv->poison`. -/
def c_variant_return_poison (poison : Nat) : Int := -(poison : Int)

/-
 * Level-stack state blocks (c-variant.c, c_variant_alloc /
 * c_variant_push_level)
 *
 * c-variant.c keeps the level array inline in the CVariant; entering a 'v',
 * or nesting past the inline capacity, moves the current state into a
 * freshly allocated (or cached) state block.  c_variant_push_level's
 * allocation failure is the one failure path of the reader that does NOT
 * report through c_variant_poison_internal: the -ENOMEM is returned raw.
-/

def C_VARIANT_MAX_INLINE_LEVELS : Nat := 255

/-- c_variant_alloc (c-variant.c lines 957-1008), abstracted to its
observable outcome: memalign either returns NULL (the function returns
-ENOMEM and nothing else happens — it has no variant whose poison it could
touch) or yields a fresh zero-initialized block.  `malloc_ok`, the
allocator's outcome, is an input from the environment. -/
def c_variant_alloc (malloc_ok : Bool) : Except Int Unit :=
  if malloc_ok then Except.ok () else Except.error (-(ENOMEM : Int))

/-- The fields of c-variant.c's CVariant that c_variant_push_level reads and
writes, beside the level contents themselves: the inline level cursor and
capacity, the length of the cv->unused chain of cached state blocks, the
length of the cv->parent chain, and the poison field. -/
structure CVariantStack where
  i_levels : Nat
  n_levels : Nat
  n_unused : Nat
  n_parents : Nat
  poison : Nat
deriving DecidableEq, Repr

/-- c_variant_push_level (c-variant.c lines 1027-1061) over those fields:
anything but a variant, with room in the inline level array, just bumps
i_levels; otherwise a state block is taken from the unused cache or freshly
allocated (fresh blocks carry C_VARIANT_MAX_INLINE_LEVELS levels) and the
current state moves into it as the new parent.  When c_variant_alloc fails,
its -ENOMEM is returned unchanged: this path does not go through
c_variant_poison_internal, so the poison field keeps its value, and
c_variant_enter_one (c-variant.c lines 1246-1248) passes the bare return
value on to its caller. -/
def c_variant_push_level (cv : CVariantStack) (element : Char) (malloc_ok : Bool) :
    Int × CVariantStack :=
  if element ≠ 'v' ∧ cv.i_levels + 1 < cv.n_levels then
    (0, { cv with i_levels := cv.i_levels + 1 })
  else if cv.n_unused > 0 then
    (0, { cv with
          n_unused := cv.n_unused - 1
          i_levels := 0
          n_levels := C_VARIANT_MAX_INLINE_LEVELS
          n_parents := cv.n_parents + 1 })
  else
    match c_variant_alloc malloc_ok with
    | Except.error r => (r, cv)
    | Except.ok _ =>
      (0, { cv with
            i_levels := 0
            n_levels := C_VARIANT_MAX_INLINE_LEVELS
            n_parents := cv.n_parents + 1 })

/-
 * NULL-variant paths of the public entry points (c-variant-reader.c and
 * c-variant-writer.c).  Each function captures exactly the `!cv` branch of
 * the corresponding public function; string arguments are lists of
 * characters, `[]` standing for the empty string (the `!*signature` test).
-/

/-- c_variant_enter(NULL, ...) (c-variant-reader.c line 768). -/
def c_variant_enter_null : Int := -(ENOTUNIQ : Int)

/-- c_variant_exit(NULL, ...) (c-variant-reader.c line 826). -/
def c_variant_exit_null : Int := -(ENOTUNIQ : Int)

/-- c_variant_beginv(NULL, ...) (c-variant-writer.c lines 841-842). -/
def c_variant_beginv_null : Int := -(ENOTUNIQ : Int)

/-- c_variant_end(NULL, ...) (c-variant-writer.c lines 907-908). -/
def c_variant_end_null : Int := -(ENOTUNIQ : Int)

/-- c_variant_writev(NULL, signature, ...) (c-variant-writer.c lines
987-991): empty signature succeeds, the unit signature "()" succeeds, any
other signature fails with -EBADRQC. -/
def c_variant_writev_null (signature : List Char) : Int :=
  if signature = [] then 0
  else if signature ≠ '(' :: ')' :: [] then -(EBADRQC : Int)
  else 0

/-- c_variant_readv(NULL, signature, ...) (c-variant-reader.c lines
1021-1031): empty signature succeeds, "()" succeeds, otherwise the default
values are filled in and -EBADRQC is returned. -/
def c_variant_readv_null (signature : List Char) : Int :=
  if signature = [] then 0
  else if signature = '(' :: ')' :: [] then 0
  else -(EBADRQC : Int)

/-- c_variant_insert(NULL, type, vecs) (c-variant-writer.c lines
1112-1117), given the summed iovec length `size`. -/
def c_variant_insert_null (type : List Char) (size : Nat) : Int :=
  if type ≠ '(' :: ')' :: [] then -(EBADRQC : Int)
  else if size ≠ 1 then -(ENOTUNIQ : Int)
  else 0

/-- c_variant_seal(NULL) (c-variant-writer.c line 1139). -/
def c_variant_seal_null : Int := 0

/-- c_variant_peek_count(NULL) (c-variant-reader.c lines 690-691). -/
def c_variant_peek_count_null : Nat := 1

/-- c_variant_peek_type(NULL, sizep) (c-variant-reader.c lines 726-728):
returns the unit type string and stores its length 2. -/
def c_variant_peek_type_null : List Char × Nat := ('(' :: ')' :: [], 2)

/-- c_variant_is_sealed(NULL) (c-variant.c line 1606). -/
def c_variant_is_sealed_null : Bool := true

/-- c_variant_return_poison(NULL) (c-variant.c line 1634). -/
def c_variant_return_poison_null : Int := 0

/-
 * Levels (c-variant-reader.c)
 *
 * A CVariantLevel tracks one container frame.  The level's `type` is the C
 * `const char *type` cursor, carried as the list of characters from the
 * cursor onwards (`n_type` of which belong to this level).  The backing
 * iovec array is a list of byte lists.
-/

structure CVariantLevel where
  size : Nat
  i_tail : Nat
  v_tail : Nat
  wordsize : Nat
  enclosing : Char
  n_type : Nat
  v_front : Nat
  i_front : Nat
  index : Nat
  offset : Nat
  type : List Char
deriving DecidableEq, Repr

/-- The per-variant data the reader-side level functions consume: the iovec
array and the poison field. -/
structure CVariant where
  vecs : List (List Nat)
  poison : Nat
deriving DecidableEq, Repr

/-- c_variant_level_root: initialize the root level over `size` bytes. -/
def c_variant_level_root (size : Nat) (type : List Char) (n_type : Nat) :
    CVariantLevel :=
  { size := size
    i_tail := size
    v_tail := 0
    wordsize := c_variant_word_size size 0
    enclosing := '('
    type := type
    v_front := 0
    i_front := 0
    offset := 0
    n_type := n_type
    index := 1 }

/-- The `while (diff > level->i_front)` retract loop of c_variant_level_jump:
steps `v_front` back one vector at a time.  Recursion is on `v_front`, which
the loop decrements; the C `assert(level->v_front > 0)` corresponds to the
`0` case, where we stop. -/
def jumpBack (vecs : List (List Nat)) : Nat → Nat → Nat → Nat × Nat
  | 0, diff, i_front =>
    if diff > i_front then (0, 0) else (0, i_front - diff)
  | vf + 1, diff, i_front =>
    if diff > i_front then
      jumpBack vecs vf (diff - i_front) (vecs.getD vf []).length
    else (vf + 1, i_front - diff)

/-- c_variant_level_jump: move the front iterator to `offset` (relative to
the container start). -/
def c_variant_level_jump (cv : CVariant) (level : CVariantLevel) (offset : Nat) :
    CVariantLevel :=
  if offset ≥ level.offset then
    { level with i_front := level.i_front + (offset - level.offset), offset := offset }
  else
    let (vf, if_) := jumpBack cv.vecs level.v_front (level.offset - offset) level.i_front
    { level with v_front := vf, i_front := if_, offset := offset }

/-- The `while (level->i_front >= v->iov_len)` fold loop of
c_variant_level_front.  Each iteration asserts `v_front + 1 < n_vecs`, so
the loop runs fewer than `n_vecs` times; `fuel` is passed as `n_vecs`. -/
def frontFold (vecs : List (List Nat)) : Nat → Nat → Nat → Nat × Nat
  | 0, v_front, i_front => (v_front, i_front)
  | fuel + 1, v_front, i_front =>
    if i_front ≥ (vecs.getD v_front []).length then
      frontFold vecs fuel (v_front + 1) (i_front - (vecs.getD v_front []).length)
    else (v_front, i_front)

/-- c_variant_level_front: fold the front position onto the iovec array and
return the position (`none` models the NULL pointer), the linearly
accessible size, and the updated level. -/
def c_variant_level_front (cv : CVariant) (level : CVariantLevel) :
    Option (Nat × Nat) × Nat × CVariantLevel :=
  if level.offset < level.size then
    let (vf, if_) := frontFold cv.vecs cv.vecs.length level.v_front level.i_front
    let v := cv.vecs.getD vf []
    let sz := min (v.length - if_) (level.size - level.offset)
    (some (vf, if_), sz, { level with v_front := vf, i_front := if_ })
  else
    (none, 0, level)

/-- The `while (skip >= level->i_tail)` unfold loop of c_variant_level_tail:
steps `v_tail` back one vector at a time (`assert(level->v_tail > 0)`). -/
def tailUnfold (vecs : List (List Nat)) (skip : Nat) : Nat → Nat → Nat × Nat
  | 0, i_tail => (0, i_tail)
  | vt + 1, i_tail =>
    if skip ≥ i_tail then
      tailUnfold vecs skip vt (i_tail + (vecs.getD vt []).length)
    else (vt + 1, i_tail)

/-- The `while (level->i_tail - skip > v->iov_len)` fold loop of
c_variant_level_tail (`assert(level->v_tail + 1 < n_vecs)`, so fewer than
`n_vecs` iterations; `fuel` is passed as `n_vecs`). -/
def tailFold (vecs : List (List Nat)) (skip : Nat) : Nat → Nat → Nat → Nat × Nat
  | 0, v_tail, i_tail => (v_tail, i_tail)
  | fuel + 1, v_tail, i_tail =>
    if i_tail - skip > (vecs.getD v_tail []).length then
      tailFold vecs skip fuel (v_tail + 1) (i_tail - (vecs.getD v_tail []).length)
    else (v_tail, i_tail)

/-- c_variant_level_tail: map the tail of the level, skipping `skip` bytes
from its end.  Returns the mapped chunk (the bytes `p[0..size)` at the
returned pointer; `[]` models the NULL pointer with size 0) and the updated
level. -/
def c_variant_level_tail (cv : CVariant) (level : CVariantLevel) (skip : Nat) :
    List Nat × CVariantLevel :=
  if skip < level.size then
    let (vt, it) := tailUnfold cv.vecs skip level.v_tail level.i_tail
    let (vt, it) := tailFold cv.vecs skip cv.vecs.length vt it
    let v := cv.vecs.getD vt []
    let sz := if level.size < it then level.size - skip else it - skip
    ((v.drop (it - skip - sz)).take sz,
     { level with v_tail := vt, i_tail := it })
  else
    ([], level)

/-
 * Readers (c-variant-reader.c)
-/

/-- The outputs of c_variant_peek: the return value `r`, the out-parameters
`info`, `size`, `end` and `front` (`front` models `*frontp`: `none` is the
NULL pointer, and is also used when the caller passed `frontp == NULL`), and
the threaded variant and level state. -/
structure PeekResult where
  r : Int
  info : CVariantType
  size : Nat
  end_ : Nat
  front : Option (Nat × Nat)
  cv : CVariant
  level : CVariantLevel
deriving DecidableEq, Repr

/-- c_variant_peek (c-variant-reader.c lines 290-396).  `want_front` tells
whether the caller passed a non-NULL `frontp`.  The `assert(r == 1)` after
c_variant_signature_next is modelled by returning the inputs unchanged when
the level's type text does not parse (unreachable for levels built by the
library). -/
def c_variant_peek (cv : CVariant) (level : CVariantLevel) (element : Char)
    (want_front : Bool) : PeekResult :=
  if level.n_type < 1 ∨ level.type.headD '\x00' ≠ element ∨ level.index = 0 then
    let (p, r) := c_variant_poison_internal cv.poison (-(EBADRQC : Int))
    ⟨r, default, 0, 0, none, { cv with poison := p }, level⟩
  else
    match c_variant_signature_next (level.type.take level.n_type) with
    | SigResult.parsed info =>
      let offset0 := ALIGN_TO level.offset (2 ^ info.alignment)
      let level := { level with i_front := level.i_front + (offset0 - level.offset),
                                offset := offset0 }
      let res :=
        if info.size > 0 then (offset0 + info.size, cv, level)
        else
          let wz := 2 ^ level.wordsize
          if level.enclosing = 'v' then (level.index - 1, cv, level)
          else if level.enclosing = 'm' then (level.size - 1, cv, level)
          else if level.enclosing = 'a' then
            let idx := (level.index - 1) * wz
            let (tail, level) := c_variant_level_tail cv level idx
            if wz ≤ tail.length then
              (c_variant_word_fetch (tail.drop (tail.length - wz)) level.wordsize,
               cv, level)
            else (offset0, cv, level)
          else if level.enclosing = '(' ∨ level.enclosing = '{' then
            let idx := (level.index - 1) * wz
            if info.n_type = level.n_type then
              (if idx ≤ level.size then level.size - idx else offset0, cv, level)
            else
              let (tail, level) := c_variant_level_tail cv level idx
              if wz ≤ tail.length then
                (c_variant_word_fetch (tail.drop (tail.length - wz)) level.wordsize,
                 cv, level)
              else (offset0, cv, level)
          else
            let (p, _) := c_variant_poison_internal cv.poison (-(EFAULT : Int))
            (offset0, { cv with poison := p }, level)
      match res with
      | (offset, cv, level) =>
        let sz :=
          if offset ≥ level.offset ∧ offset ≤ level.size then offset - level.offset
          else 0
        let (front, level) :=
          if want_front then
            let (p, front_size, level) := c_variant_level_front cv level
            (if sz ≤ front_size then p else none, level)
          else (none, level)
        ⟨0, info, sz, offset, front, cv, level⟩
    | _ => ⟨0, default, 0, 0, none, cv, level⟩

/-- c_variant_advance (c-variant-reader.c lines 398-418): jump the front to
`end` and update index/type for the enclosing container. -/
def c_variant_advance (cv : CVariant) (level : CVariantLevel) (info : CVariantType)
    (end_ : Nat) : CVariantLevel :=
  let level := c_variant_level_jump cv level end_
  if level.enclosing = 'm' ∨ level.enclosing = 'a' then
    { level with index := level.index - 1 }
  else
    let level :=
      if (level.enclosing = '(' ∨ level.enclosing = '{') ∧ info.size = 0 then
        { level with index := level.index + 1 }
      else level
    { level with type := level.type.drop info.n_type,
                 n_type := level.n_type - info.n_type }

/-- The backwards NUL scan of the 'v' branch of c_variant_enter_one
(`for (i = 1; i < tail_size; ++i) if (tail[tail_size - i - 1] == 0) break;`):
returns the loop counter `i` at exit. -/
def variantTailScanFrom (tail : List Nat) (i : Nat) : Nat :=
  if h : i < tail.length then
    if tail.getD (tail.length - i - 1) 1 = 0 then i
    else variantTailScanFrom tail (i + 1)
  else i
termination_by tail.length - i

def variantTailScan (tail : List Nat) : Nat := variantTailScanFrom tail 1

/-- The 'v' branch of c_variant_enter_one (c-variant-reader.c lines
451-474): given the chunk mapped by c_variant_level_tail(next, 0) and the
freshly initialized child level (whose `index` is 0), recover the child's
type string from the tail, or substitute the unit type. -/
def enterVariantChild (tail : List Nat) (next : CVariantLevel) : CVariantLevel :=
  let ts := tail.length
  let i := variantTailScan tail
  let next :=
    if i < ts then
      match c_variant_signature_one ((tail.drop (ts - i)).map Char.ofNat) with
      | Except.ok _ =>
        { next with type := (tail.drop (ts - i)).map Char.ofNat
                    n_type := i
                    index := next.size - i }
      | Except.error _ => next
    else next
  if next.index = 0 then
    { next with type := '(' :: ')' :: [], n_type := 2, index := 1 }
  else next

/-- The reader-visible state: the shared variant data plus the level stack
(head = current level, last = root).  The state-block chaining of
c_variant_push_level/c_variant_pop_level and the allocation in
c_variant_ensure_level live in a file of the split bus1 tree that is not
under src/; following the spec (section 4.3), pushing and popping behave as
a plain unbounded stack (allocation failure aside), which is how we model
them. -/
structure CVariantReader where
  cv : CVariant
  levels : List CVariantLevel
deriving DecidableEq, Repr

/-- c_variant_enter_one (c-variant-reader.c lines 420-511).  The `[]` levels
case is unreachable (there is always a root level). -/
def c_variant_enter_one (rd : CVariantReader) (container : Char) :
    Int × CVariantReader :=
  match rd.levels with
  | [] => (0, rd)
  | level :: rest =>
    let pr := c_variant_peek rd.cv level container false
    if pr.r < 0 then (pr.r, ⟨pr.cv, pr.level :: rest⟩)
    else
      let level := pr.level
      let next0 : CVariantLevel :=
        { size := pr.size
          i_tail := level.i_front + pr.size
          v_tail := level.v_front
          wordsize := c_variant_word_size pr.size 0
          enclosing := container
          n_type := pr.info.n_type - 1
          v_front := level.v_front
          i_front := level.i_front
          index := 0
          offset := 0
          type := level.type.drop 1 }
      let next :=
        if container = 'v' then
          let (tail, next) := c_variant_level_tail pr.cv next0 0
          enterVariantChild tail next
        else if container = 'm' then
          if pr.size > 0 ∧ (pr.info.bound_size = 0 ∨ pr.info.bound_size = pr.size) then
            { next0 with index := 1 }
          else next0
        else if container = 'a' then
          if pr.info.bound_size > 0 then
            if pr.size % pr.info.bound_size = 0 then
              { next0 with index := pr.size / pr.info.bound_size }
            else next0
          else
            let (tail, next) := c_variant_level_tail pr.cv next0 0
            let wz := 2 ^ next.wordsize
            if wz ≤ tail.length then
              let off := c_variant_word_fetch (tail.drop (tail.length - wz)) next.wordsize
              if off < pr.size ∧ (pr.size - off) % wz = 0 then
                { next with index := (pr.size - off) / wz }
              else next
            else next
        else if container = '(' ∨ container = '{' then
          { next0 with n_type := next0.n_type - 1, index := 1 }
        else
          next0 -- assert(0): enter_one is only invoked with container characters
      let level := c_variant_advance pr.cv level pr.info pr.end_
      (0, ⟨pr.cv, next :: level :: rest⟩)

/-- What c_variant_read_one stores into the caller's `arg`: for fixed basics
the bytes `memcpy`ed into the variable, for string-likes the string the
returned pointer designates (`none` = the static default, the empty
string). -/
inductive ReadArg
  | fixedBytes (bytes : List Nat)
  | strPtr (bytes : Option (List Nat))
deriving DecidableEq, Repr

structure ReadOneResult where
  r : Int
  cv : CVariant
  level : CVariantLevel
  arg : Option ReadArg
deriving DecidableEq, Repr

/-- c_variant_read_one (c-variant-reader.c lines 532-573), for a non-NULL
`arg`. -/
def c_variant_read_one (cv : CVariant) (level : CVariantLevel) (basic : Char) :
    ReadOneResult :=
  let pr := c_variant_peek cv level basic true
  if pr.r < 0 then ⟨pr.r, pr.cv, pr.level, none⟩
  else
    if basic = 'b' ∨ basic = 'y' ∨ basic = 'n' ∨ basic = 'q' ∨ basic = 'i' ∨
       basic = 'u' ∨ basic = 'x' ∨ basic = 't' ∨ basic = 'h' ∨ basic = 'd' then
      let bytes :=
        match pr.front with
        | some (v, i) => (((pr.cv.vecs.getD v []).drop i).take pr.size)
        | none => List.replicate pr.size 0
      let level := c_variant_advance pr.cv pr.level pr.info pr.end_
      ⟨0, pr.cv, level, some (.fixedBytes bytes)⟩
    else if basic = 's' ∨ basic = 'o' ∨ basic = 'g' then
      let str :=
        match pr.front with
        | some (v, i) =>
          let chunk := ((pr.cv.vecs.getD v []).drop i).take pr.size
          if pr.size = 0 ∨ chunk.getD (pr.size - 1) 1 ≠ 0 then none
          else some chunk
        | none => none
      let level := c_variant_advance pr.cv pr.level pr.info pr.end_
      ⟨0, pr.cv, level, some (.strPtr str)⟩
    else
      let (p, r) := c_variant_poison_internal pr.cv.poison (-(EFAULT : Int))
      ⟨r, { pr.cv with poison := p }, pr.level, none⟩

/-
 * Theorems
-/

/-- The little-endian encoding of `v` in exactly `n` bytes: byte `k` is
`v / 256^k % 256`.  This is the specification-side description the word
codec is compared against. -/
def leBytesSpec (n v : Nat) : List Nat :=
  (List.range n).map fun k => v / 256 ^ k % 256

theorem storeLE_eq_leBytesSpec (n : Nat) : ∀ v, storeLE n v = leBytesSpec n v := by
  induction n with
  | zero => intro v; rfl
  | succ n ih =>
    intro v
    rw [storeLE, ih]
    simp only [leBytesSpec, List.range_succ_eq_map, List.map_cons, List.map_map]
    congr 1
    · simp
    · apply List.map_congr_left
      intro k _
      simp only [Function.comp_apply]
      rw [Nat.div_div_eq_div_mul, ← pow_succ']

theorem fetchLE_storeLE (n : Nat) : ∀ v, fetchLE n (storeLE n v) = v % 256 ^ n := by
  induction n with
  | zero => intro v; simp [fetchLE, storeLE, Nat.mod_one]
  | succ n ih =>
    intro v
    rw [storeLE, fetchLE]
    simp only [List.headD_cons, List.tail_cons, ih]
    rw [pow_succ', Nat.mod_mul]

theorem pow256_eq (m : Nat) : (256 : Nat) ^ m = 2 ^ (8 * m) := by
  rw [pow_mul]; norm_num

/-- C10: for every wordsize `w ≤ 3` and every value `v < 2^(8 * 2^w)`,
storing `v` with c_variant_word_store and fetching the stored bytes with
c_variant_word_fetch returns `v`, and the stored bytes are the little-endian
encoding of `v` in exactly `2^w` bytes. -/
theorem c_variant_word_roundtrip (w v : Nat) (hw : w ≤ 3)
    (hv : v < 2 ^ (8 * 2 ^ w)) :
    c_variant_word_fetch (c_variant_word_store w v) w = v ∧
    c_variant_word_store w v = leBytesSpec (2 ^ w) v := by
  have hmod : ∀ m u : Nat, u < 2 ^ (8 * m) → u % 256 ^ m = u := by
    intro m u hu
    exact Nat.mod_eq_of_lt (by rwa [pow256_eq])
  interval_cases w
  · refine ⟨?_, ?_⟩
    · show (c_variant_word_store 0 v).headD 0 = v
      have : v % 256 = v := Nat.mod_eq_of_lt (by simpa using hv)
      simp [c_variant_word_store, this]
    · show [v % 2 ^ 8] = leBytesSpec 1 v
      simp [leBytesSpec, List.range_succ]
  · have hv' : v % 2 ^ 16 = v := Nat.mod_eq_of_lt (by simpa using hv)
    refine ⟨?_, ?_⟩
    · show fetchLE 2 (storeLE 2 (v % 2 ^ 16)) = v
      rw [hv', fetchLE_storeLE]
      exact hmod 2 v (by simpa using hv)
    · show storeLE 2 (v % 2 ^ 16) = leBytesSpec 2 v
      rw [hv', storeLE_eq_leBytesSpec]
  · have hv' : v % 2 ^ 32 = v := Nat.mod_eq_of_lt (by simpa using hv)
    refine ⟨?_, ?_⟩
    · show fetchLE 4 (storeLE 4 (v % 2 ^ 32)) = v
      rw [hv', fetchLE_storeLE]
      exact hmod 4 v (by simpa using hv)
    · show storeLE 4 (v % 2 ^ 32) = leBytesSpec 4 v
      rw [hv', storeLE_eq_leBytesSpec]
  · have hv' : v % 2 ^ 64 = v := Nat.mod_eq_of_lt (by simpa using hv)
    refine ⟨?_, ?_⟩
    · show fetchLE 8 (storeLE 8 (v % 2 ^ 64)) = v
      rw [hv', fetchLE_storeLE]
      exact hmod 8 v (by simpa using hv)
    · show storeLE 8 (v % 2 ^ 64) = leBytesSpec 8 v
      rw [hv', storeLE_eq_leBytesSpec]

/-- Witness for c_variant_word_roundtrip at wordsize 1 and value 0x1234. -/
theorem c_variant_word_roundtrip_witness :
    (4660 : Nat) < 2 ^ (8 * 2 ^ 1) ∧
    c_variant_word_fetch (c_variant_word_store 1 4660) 1 = 4660 ∧
    c_variant_word_store 1 4660 = leBytesSpec (2 ^ 1) 4660 :=
  ⟨by norm_num,
   (c_variant_word_roundtrip 1 4660 (by norm_num) (by norm_num)).1,
   (c_variant_word_roundtrip 1 4660 (by norm_num) (by norm_num)).2⟩

/-- C7 counterexample: the analyzer's actual result on the signature
"(u(u(u(u(u)u)u)u)u)" is alignment 2, fixed size 36, depth 5, length 19;
the claimed values (size 40, depth 4, length 20) do not match. -/
theorem c7_signature_counterexample :
    c_variant_signature_next "(u(u(u(u(u)u)u)u)u)".data =
      SigResult.parsed ⟨2, 36, 0, 5, 19, "(u(u(u(u(u)u)u)u)u)".data⟩ ∧
    ¬ ((36 : Nat) = 40 ∧ (5 : Nat) = 4 ∧ (19 : Nat) = 20) := by
  constructor
  · rfl
  · decide

/-- C7 (amended): c_variant_signature_next applied to
"(u(u(u(u(u)u)u)u)u)" (with its full length 19 as n_signature) returns 1
(parsed) with alignment 2, fixed size 36 bytes, maximum nesting depth 5 and
consumed type-string length 19. -/
theorem c7_signature_nested_tuples :
    c_variant_signature_next "(u(u(u(u(u)u)u)u)u)".data =
      SigResult.parsed ⟨2, 36, 0, 5, 19, "(u(u(u(u(u)u)u)u)u)".data⟩ := by
  rfl

/-- C8: every signature in the claimed set is rejected by
c_variant_signature_next with invalid-type (-EMEDIUMTYPE) or too-deep
(-ELOOP). -/
theorem c8_signature_invalid :
    (c_variant_signature_next "A".data = .err (-(EMEDIUMTYPE : Int)) ∨
     c_variant_signature_next "A".data = .err (-(ELOOP : Int))) ∧
    (c_variant_signature_next "$".data = .err (-(EMEDIUMTYPE : Int)) ∨
     c_variant_signature_next "$".data = .err (-(ELOOP : Int))) ∧
    (c_variant_signature_next "\x7b\x7d".data = .err (-(EMEDIUMTYPE : Int)) ∨
     c_variant_signature_next "\x7b\x7d".data = .err (-(ELOOP : Int))) ∧
    (c_variant_signature_next "\x7b)".data = .err (-(EMEDIUMTYPE : Int)) ∨
     c_variant_signature_next "\x7b)".data = .err (-(ELOOP : Int))) ∧
    (c_variant_signature_next "{()y}".data = .err (-(EMEDIUMTYPE : Int)) ∨
     c_variant_signature_next "{()y}".data = .err (-(ELOOP : Int))) ∧
    (c_variant_signature_next "{yyy}".data = .err (-(EMEDIUMTYPE : Int)) ∨
     c_variant_signature_next "{yyy}".data = .err (-(ELOOP : Int))) ∧
    (c_variant_signature_next "(".data = .err (-(EMEDIUMTYPE : Int)) ∨
     c_variant_signature_next "(".data = .err (-(ELOOP : Int))) ∧
    (c_variant_signature_next ")".data = .err (-(EMEDIUMTYPE : Int)) ∨
     c_variant_signature_next ")".data = .err (-(ELOOP : Int))) ∧
    (c_variant_signature_next "a".data = .err (-(EMEDIUMTYPE : Int)) ∨
     c_variant_signature_next "a".data = .err (-(ELOOP : Int))) ∧
    (c_variant_signature_next "m".data = .err (-(EMEDIUMTYPE : Int)) ∨
     c_variant_signature_next "m".data = .err (-(ELOOP : Int))) ∧
    (c_variant_signature_next "mama".data = .err (-(EMEDIUMTYPE : Int)) ∨
     c_variant_signature_next "mama".data = .err (-(ELOOP : Int))) ∧
    (c_variant_signature_next "{mau}".data = .err (-(EMEDIUMTYPE : Int)) ∨
     c_variant_signature_next "{mau}".data = .err (-(ELOOP : Int))) ∧
    (c_variant_signature_next "(uu(u())uu{vu}uu)".data = .err (-(EMEDIUMTYPE : Int)) ∨
     c_variant_signature_next "(uu(u())uu{vu}uu)".data = .err (-(ELOOP : Int))) := by
  refine ⟨Or.inl rfl, Or.inl rfl, Or.inl rfl, Or.inl rfl, Or.inl rfl, Or.inl rfl,
          Or.inl rfl, Or.inl rfl, Or.inl rfl, Or.inl rfl, Or.inl rfl, Or.inl rfl,
          Or.inl rfl⟩

/-- C2: the first-error-sticks poison semantics that
c_variant_return_poison documents ("each variant always remembers the first
error code that was caused by any operation on it") is broken by the
reader's allocation path: c_variant_push_level, asked to push a 'v' level
on an unpoisoned variant with no cached unused state block while the
allocator fails, returns -ENOMEM with the variant state — the poison field
included, still 0 — completely unchanged, and c_variant_enter_one
(c-variant.c) passes that return value straight to the caller, so
c_variant_return_poison still returns 0 (not the first error kind) after
the failing operation; had the path reported through
c_variant_poison_internal like every other failure path, return_poison
would return -ENOMEM. -/
theorem c2_push_level_enomem_skips_poison :
    (c_variant_push_level ⟨0, 1, 0, 0, 0⟩ 'v' false).1 = -(ENOMEM : Int) ∧
    (c_variant_push_level ⟨0, 1, 0, 0, 0⟩ 'v' false).2 = ⟨0, 1, 0, 0, 0⟩ ∧
    c_variant_return_poison
      (c_variant_push_level ⟨0, 1, 0, 0, 0⟩ 'v' false).2.poison = 0 ∧
    (0 : Int) ≠ -(ENOMEM : Int) ∧
    c_variant_return_poison (c_variant_poison_internal 0 (-(ENOMEM : Int))).1 =
      -(ENOMEM : Int) := by
  decide

/-- C3 counterexample: writing a non-unit signature to the NULL variant
fails with -EBADRQC, not with -ENOTUNIQ as claimed (c-variant-writer.c line
991: `return strcmp(signature, "()") ? -EBADRQC : 0`). -/
theorem c3_null_counterexample :
    c_variant_writev_null ['u'] = -(EBADRQC : Int) ∧
    -(EBADRQC : Int) ≠ -(ENOTUNIQ : Int) := by
  constructor
  · rfl
  · decide

/-- C3 (amended): a NULL CVariant is accepted by every public operation and
treated as the unit type "()": enter, exit, begin and end on NULL fail with
-ENOTUNIQ; writev and readv on NULL succeed for the empty and the unit
signature and fail with -EBADRQC for any other signature; insert on NULL
fails with -EBADRQC when the declared type is not "()" and with -ENOTUNIQ
when the type is "()" but the payload size is not 1 byte, succeeding for
"()" with exactly 1 byte; the read-only operations return the unit type's
defaults (peek_count 1, peek_type "()" of length 2, is_sealed true,
return_poison 0, seal success). -/
theorem c3_null_unit_semantics (sig t : List Char) (n : Nat)
    (hsig : sig ≠ [] ∧ sig ≠ '(' :: ')' :: [])
    (ht : t ≠ '(' :: ')' :: []) (hn : n ≠ 1) :
    c_variant_enter_null = -(ENOTUNIQ : Int) ∧
    c_variant_exit_null = -(ENOTUNIQ : Int) ∧
    c_variant_beginv_null = -(ENOTUNIQ : Int) ∧
    c_variant_end_null = -(ENOTUNIQ : Int) ∧
    c_variant_writev_null [] = 0 ∧
    c_variant_writev_null ('(' :: ')' :: []) = 0 ∧
    c_variant_writev_null sig = -(EBADRQC : Int) ∧
    c_variant_readv_null [] = 0 ∧
    c_variant_readv_null ('(' :: ')' :: []) = 0 ∧
    c_variant_readv_null sig = -(EBADRQC : Int) ∧
    c_variant_insert_null t n = -(EBADRQC : Int) ∧
    c_variant_insert_null ('(' :: ')' :: []) n = -(ENOTUNIQ : Int) ∧
    c_variant_insert_null ('(' :: ')' :: []) 1 = 0 ∧
    c_variant_seal_null = 0 ∧
    c_variant_peek_count_null = 1 ∧
    c_variant_peek_type_null = ('(' :: ')' :: [], 2) ∧
    c_variant_is_sealed_null = true ∧
    c_variant_return_poison_null = 0 := by
  obtain ⟨h1, h2⟩ := hsig
  refine ⟨rfl, rfl, rfl, rfl, rfl, rfl, ?_, rfl, rfl, ?_, ?_, ?_, rfl, rfl, rfl, rfl,
          rfl, rfl⟩
  · rw [c_variant_writev_null, if_neg h1, if_pos h2]
  · rw [c_variant_readv_null, if_neg h1, if_neg h2]
  · rw [c_variant_insert_null, if_pos ht]
  · rw [c_variant_insert_null, if_neg (by simp), if_pos hn]

/-- Witness for c3_null_unit_semantics at signature "u", insert type "s"
and payload size 0. -/
theorem c3_null_unit_semantics_witness :
    c_variant_writev_null ['u'] = -(EBADRQC : Int) ∧
    c_variant_readv_null ['u'] = -(EBADRQC : Int) ∧
    c_variant_insert_null ['s'] 0 = -(EBADRQC : Int) ∧
    c_variant_insert_null ('(' :: ')' :: []) 0 = -(ENOTUNIQ : Int) :=
  ⟨(c3_null_unit_semantics ['u'] ['s'] 0 (by decide) (by decide) (by decide)).2.2.2.2.2.2.1,
   (c3_null_unit_semantics ['u'] ['s'] 0 (by decide) (by decide) (by decide)).2.2.2.2.2.2.2.2.2.1,
   (c3_null_unit_semantics ['u'] ['s'] 0 (by decide) (by decide) (by decide)).2.2.2.2.2.2.2.2.2.2.1,
   (c3_null_unit_semantics ['u'] ['s'] 0 (by decide) (by decide) (by decide)).2.2.2.2.2.2.2.2.2.2.2.1⟩

theorem c_variant_level_jump_fields (cv : CVariant) (level : CVariantLevel) (o : Nat) :
    (c_variant_level_jump cv level o).offset = o ∧
    (c_variant_level_jump cv level o).enclosing = level.enclosing ∧
    (c_variant_level_jump cv level o).index = level.index ∧
    (c_variant_level_jump cv level o).type = level.type ∧
    (c_variant_level_jump cv level o).n_type = level.n_type ∧
    (c_variant_level_jump cv level o).size = level.size := by
  rw [c_variant_level_jump]
  split <;> exact ⟨rfl, rfl, rfl, rfl, rfl, rfl⟩

/-- C6 counterexample: after a successful read of the child of a maybe
('m'), c_variant_advance decrements the index but leaves the type cursor
where it was — it is not moved past the child's type string as the claim
states for all non-array containers. -/
theorem c6_advance_counterexample :
    (c_variant_advance ⟨[[0, 0, 0, 0]], 0⟩ ⟨4, 4, 0, 0, 'm', 1, 0, 0, 1, 0, ['u']⟩
        ⟨2, 4, 0, 0, 1, ['u']⟩ 4).type = ['u'] ∧
    (c_variant_advance ⟨[[0, 0, 0, 0]], 0⟩ ⟨4, 4, 0, 0, 'm', 1, 0, 0, 1, 0, ['u']⟩
        ⟨2, 4, 0, 0, 1, ['u']⟩ 4).n_type = 1 ∧
    (['u'] ≠ List.drop 1 ['u'] ∧ (1 : Nat) ≠ 1 - 1) := by
  refine ⟨rfl, rfl, by decide, by decide⟩

/-- C6 (amended): after a successful read or enter of one child element,
c_variant_advance moves the front cursor of the current level to the
child's end offset; if the enclosing container is an array or a maybe the
index is decremented and the type cursor stays put; if it is a tuple or
pair the index is incremented exactly when the child is dynamic-size and
the type cursor moves past the child's type string; in the remaining cases
(e.g. a variant level) the index is untouched and the type cursor moves
past the child's type string. -/
theorem c_variant_advance_updates (cv : CVariant) (level : CVariantLevel)
    (info : CVariantType) (end_ : Nat) :
    (c_variant_advance cv level info end_).offset = end_ ∧
    ((level.enclosing = 'm' ∨ level.enclosing = 'a') →
      (c_variant_advance cv level info end_).index = level.index - 1 ∧
      (c_variant_advance cv level info end_).type = level.type ∧
      (c_variant_advance cv level info end_).n_type = level.n_type) ∧
    ((level.enclosing = '(' ∨ level.enclosing = '{') →
      (c_variant_advance cv level info end_).index =
        (if info.size = 0 then level.index + 1 else level.index) ∧
      (c_variant_advance cv level info end_).type = level.type.drop info.n_type ∧
      (c_variant_advance cv level info end_).n_type = level.n_type - info.n_type) ∧
    (¬ (level.enclosing = 'm' ∨ level.enclosing = 'a' ∨ level.enclosing = '(' ∨
        level.enclosing = '{') →
      (c_variant_advance cv level info end_).index = level.index ∧
      (c_variant_advance cv level info end_).type = level.type.drop info.n_type ∧
      (c_variant_advance cv level info end_).n_type = level.n_type - info.n_type) := by
  obtain ⟨ho, he, hi, ht, hn, _⟩ := c_variant_level_jump_fields cv level end_
  by_cases hma : level.enclosing = 'm' ∨ level.enclosing = 'a'
  · have hcond : ((c_variant_level_jump cv level end_).enclosing = 'm' ∨
        (c_variant_level_jump cv level end_).enclosing = 'a') := by rw [he]; exact hma
    refine ⟨?_, fun _ => ⟨?_, ?_, ?_⟩, fun h => ?_, fun h => ?_⟩
    · simp [c_variant_advance, if_pos hcond, ho]
    · simp [c_variant_advance, if_pos hcond, hi]
    · simp [c_variant_advance, if_pos hcond, ht]
    · simp [c_variant_advance, if_pos hcond, hn]
    · exact absurd hma (by rcases h with h | h <;> rw [h] <;> decide)
    · exact absurd (Or.inl (hma.elim Or.inl Or.inr) : _ ∨ level.enclosing = '(' ∨
        level.enclosing = '{') (by tauto)
  · have hcond : ¬ ((c_variant_level_jump cv level end_).enclosing = 'm' ∨
        (c_variant_level_jump cv level end_).enclosing = 'a') := by rw [he]; exact hma
    by_cases htp : level.enclosing = '(' ∨ level.enclosing = '{'
    · have hcond2 : ((c_variant_level_jump cv level end_).enclosing = '(' ∨
          (c_variant_level_jump cv level end_).enclosing = '{') := by rw [he]; exact htp
      refine ⟨?_, fun h => absurd h hma, fun _ => ⟨?_, ?_, ?_⟩, fun h => ?_⟩
      · by_cases hs : info.size = 0 <;>
          simp [c_variant_advance, if_neg hcond, hcond2, hs, ho]
      · by_cases hs : info.size = 0 <;>
          simp [c_variant_advance, if_neg hcond, hcond2, hs, hi]
      · by_cases hs : info.size = 0 <;>
          simp [c_variant_advance, if_neg hcond, hcond2, hs, ht]
      · by_cases hs : info.size = 0 <;>
          simp [c_variant_advance, if_neg hcond, hcond2, hs, hn]
      · exact absurd (htp.elim (fun h1 => Or.inr (Or.inr (Or.inl h1)))
          (fun h1 => Or.inr (Or.inr (Or.inr h1)))) h
    · have hcond2 : ¬ (((c_variant_level_jump cv level end_).enclosing = '(' ∨
          (c_variant_level_jump cv level end_).enclosing = '{') ∧ info.size = 0) := by
        rw [he]; tauto
      refine ⟨?_, fun h => absurd h hma, fun h => absurd h htp, fun _ => ⟨?_, ?_, ?_⟩⟩
      · simp [c_variant_advance, if_neg hcond, if_neg hcond2, ho]
      · simp [c_variant_advance, if_neg hcond, if_neg hcond2, hi]
      · simp [c_variant_advance, if_neg hcond, if_neg hcond2, ht]
      · simp [c_variant_advance, if_neg hcond, if_neg hcond2, hn]

/-- Witness for c_variant_advance_updates: a maybe level at a concrete
state; the index drops from 1 to 0 and the type cursor stays. -/
theorem c_variant_advance_updates_witness :
    (c_variant_advance ⟨[[0, 0, 0, 0]], 0⟩ ⟨4, 4, 0, 0, 'm', 1, 0, 0, 1, 0, ['u']⟩
        ⟨2, 4, 0, 0, 1, ['u']⟩ 4).offset = 4 ∧
    (c_variant_advance ⟨[[0, 0, 0, 0]], 0⟩ ⟨4, 4, 0, 0, 'm', 1, 0, 0, 1, 0, ['u']⟩
        ⟨2, 4, 0, 0, 1, ['u']⟩ 4).index = 1 - 1 ∧
    (c_variant_advance ⟨[[0, 0, 0, 0]], 0⟩ ⟨4, 4, 0, 0, 'm', 1, 0, 0, 1, 0, ['u']⟩
        ⟨2, 4, 0, 0, 1, ['u']⟩ 4).type = ['u'] :=
  ⟨(c_variant_advance_updates ⟨[[0, 0, 0, 0]], 0⟩ ⟨4, 4, 0, 0, 'm', 1, 0, 0, 1, 0, ['u']⟩
      ⟨2, 4, 0, 0, 1, ['u']⟩ 4).1,
   ((c_variant_advance_updates ⟨[[0, 0, 0, 0]], 0⟩ ⟨4, 4, 0, 0, 'm', 1, 0, 0, 1, 0, ['u']⟩
      ⟨2, 4, 0, 0, 1, ['u']⟩ 4).2.1 (Or.inl rfl)).1,
   ((c_variant_advance_updates ⟨[[0, 0, 0, 0]], 0⟩ ⟨4, 4, 0, 0, 'm', 1, 0, 0, 1, 0, ['u']⟩
      ⟨2, 4, 0, 0, 1, ['u']⟩ 4).2.1 (Or.inl rfl)).2.1⟩

theorem c_variant_peek_failure (cv : CVariant) (level : CVariantLevel)
    (element : Char) (wf : Bool)
    (h : level.n_type < 1 ∨ level.type.headD '\x00' ≠ element ∨ level.index = 0) :
    c_variant_peek cv level element wf =
      ⟨(c_variant_poison_internal cv.poison (-(EBADRQC : Int))).2, default, 0, 0, none,
       { cv with poison := (c_variant_poison_internal cv.poison (-(EBADRQC : Int))).1 },
       level⟩ := by
  rw [c_variant_peek, if_pos h]

theorem c_variant_poison_internal_neg (p : Nat) (c : Int) (hc : c < 0)
    (hm : -c < 256) : (c_variant_poison_internal p c).2 < 0 := by
  rw [c_variant_poison_internal]
  split
  · rename_i hp
    simp only
    omega
  · simp only
    omega

/-- C9: when c_variant_peek (and hence c_variant_read_one) fails with
bad-request because the element at the cursor does not match the requested
type character, the remaining type string is empty, or the container index
is exhausted, the current level is returned exactly as it was (every cursor
field: offset, i_front, v_front, i_tail, v_tail, type, n_type, index) and
the data vectors are untouched; only the poison field may change
(through c_variant_poison_internal). -/
theorem c9_failed_peek_preserves_state (cv : CVariant) (level : CVariantLevel)
    (element : Char) (wf : Bool)
    (h : level.n_type < 1 ∨ level.type.headD '\x00' ≠ element ∨ level.index = 0) :
    (c_variant_peek cv level element wf).level = level ∧
    (c_variant_peek cv level element wf).cv.vecs = cv.vecs ∧
    (c_variant_peek cv level element wf).r =
      (c_variant_poison_internal cv.poison (-(EBADRQC : Int))).2 ∧
    (c_variant_read_one cv level element).level = level ∧
    (c_variant_read_one cv level element).cv.vecs = cv.vecs ∧
    (c_variant_read_one cv level element).r =
      (c_variant_poison_internal cv.poison (-(EBADRQC : Int))).2 ∧
    (c_variant_read_one cv level element).arg = none := by
  have hneg : (c_variant_poison_internal cv.poison (-(EBADRQC : Int))).2 < 0 :=
    c_variant_poison_internal_neg cv.poison _ (by norm_num [EBADRQC])
      (by norm_num [EBADRQC])
  have hro : c_variant_read_one cv level element =
      ⟨(c_variant_poison_internal cv.poison (-(EBADRQC : Int))).2,
       { cv with poison := (c_variant_poison_internal cv.poison (-(EBADRQC : Int))).1 },
       level, none⟩ := by
    rw [c_variant_read_one, c_variant_peek_failure cv level element true h]
    simp only [if_pos hneg]
  rw [c_variant_peek_failure cv level element wf h, hro]
  exact ⟨rfl, rfl, rfl, rfl, rfl, rfl, rfl⟩

/-- Witness for c9_failed_peek_preserves_state: requesting 'q' while the
cursor stands on 'u' leaves the level untouched and poisons with
-EBADRQC. -/
theorem c9_failed_peek_preserves_state_witness :
    (c_variant_peek ⟨[[7, 0, 0, 0]], 0⟩ (c_variant_level_root 4 ['u'] 1) 'q' true).level =
      c_variant_level_root 4 ['u'] 1 ∧
    (c_variant_read_one ⟨[[7, 0, 0, 0]], 0⟩ (c_variant_level_root 4 ['u'] 1) 'q').r =
      (c_variant_poison_internal 0 (-(EBADRQC : Int))).2 :=
  ⟨(c9_failed_peek_preserves_state ⟨[[7, 0, 0, 0]], 0⟩ (c_variant_level_root 4 ['u'] 1)
      'q' true (by decide)).1,
   (c9_failed_peek_preserves_state ⟨[[7, 0, 0, 0]], 0⟩ (c_variant_level_root 4 ['u'] 1)
      'q' true (by decide)).2.2.2.2.2.1⟩

theorem ALIGN_TO_eq_self (x a : Nat) (ha : 0 < a) (h : x % a = 0) :
    ALIGN_TO x a = x := by
  obtain ⟨c, hc⟩ := Nat.dvd_of_mod_eq_zero h
  subst hc
  rw [ALIGN_TO]
  have h2 : (a * c + a - 1) % a = a - 1 := by
    have h3 : a * c + a - 1 = (a - 1) + c * a := by rw [Nat.mul_comm]; omega
    rw [h3, Nat.add_mul_mod_self_right, Nat.mod_eq_of_lt (by omega)]
  omega

theorem c_variant_level_tail_fields (cv : CVariant) (level : CVariantLevel)
    (skip : Nat) :
    (c_variant_level_tail cv level skip).2.offset = level.offset ∧
    (c_variant_level_tail cv level skip).2.size = level.size ∧
    (c_variant_level_tail cv level skip).2.i_front = level.i_front ∧
    (c_variant_level_tail cv level skip).2.v_front = level.v_front ∧
    (c_variant_level_tail cv level skip).2.enclosing = level.enclosing ∧
    (c_variant_level_tail cv level skip).2.index = level.index ∧
    (c_variant_level_tail cv level skip).2.type = level.type ∧
    (c_variant_level_tail cv level skip).2.n_type = level.n_type ∧
    (c_variant_level_tail cv level skip).2.wordsize = level.wordsize := by
  rw [c_variant_level_tail]
  split <;> exact ⟨rfl, rfl, rfl, rfl, rfl, rfl, rfl, rfl, rfl⟩

theorem c_variant_level_front_none_iff (cv : CVariant) (level : CVariantLevel) :
    ((c_variant_level_front cv level).1 = none) ↔ level.size ≤ level.offset := by
  rw [c_variant_level_front]
  split
  · rename_i h
    constructor
    · intro hc
      exact absurd hc (by simp)
    · intro hc
      omega
  · rename_i h
    constructor
    · intro _
      omega
    · intro _
      rfl

/-- C5 counterexample.  First part: in c-variant-reader.c's c_variant_peek,
for a dynamic-size child that is the last type of a tuple frame with index 2
and wordsize 0, the end offset is size - (index-1)*wordsize = 9, not the
level size 10 as claimed.  Second part: with a framing offset word of 200
pointing outside the 10-byte frame, the span is truncated to 0 but the front
pointer is still returned (it is not "not accessible"). -/
theorem c5_peek_counterexample :
    ((c_variant_peek ⟨[[0, 0, 0, 0, 0, 0, 0, 0, 0, 0]], 0⟩
        ⟨10, 10, 0, 0, '(', 1, 0, 5, 2, 5, ['s']⟩ 's' true).end_ = 9 ∧
      (9 : Nat) ≠ 10 ∧
      (⟨10, 10, 0, 0, '(', 1, 0, 5, 2, 5, ['s']⟩ : CVariantLevel).size = 10) ∧
    ((c_variant_peek ⟨[[0, 0, 0, 0, 0, 0, 0, 0, 0, 200]], 0⟩
        ⟨10, 10, 0, 0, '(', 2, 0, 0, 1, 0, ['s', 'u']⟩ 's' true).end_ = 200 ∧
      (c_variant_peek ⟨[[0, 0, 0, 0, 0, 0, 0, 0, 0, 200]], 0⟩
        ⟨10, 10, 0, 0, '(', 2, 0, 0, 1, 0, ['s', 'u']⟩ 's' true).size = 0 ∧
      (c_variant_peek ⟨[[0, 0, 0, 0, 0, 0, 0, 0, 0, 200]], 0⟩
        ⟨10, 10, 0, 0, '(', 2, 0, 0, 1, 0, ['s', 'u']⟩ 's' true).front ≠ none) := by
  exact ⟨⟨rfl, by decide, rfl⟩, ⟨rfl, rfl, by decide⟩⟩

/-- C5 (amended): during c_variant_peek (c-variant-reader.c) inside a tuple
or pair, for a dynamic-size child whose alignment padding is already
consumed: (1) when the child is the last type of the frame the end offset
equals the level size minus (index-1)*wordsize bytes (the tail slots already
consumed), provided that quantity does not exceed the level size; (2)
otherwise the end offset equals the framing-offset word fetched at tail
slot (index-1)*wordsize, provided the word is linearly accessible; (3) the
reported span size is end - offset when the end offset lies inside the
closed interval from the current offset to the level size and 0 otherwise;
and (4) whenever the span is 0, the front pointer is the folded front
position, which is NULL exactly when the current offset has reached the
level size (a zero span, not a NULL front, is what makes read_basic
substitute the default value). -/
theorem c5_peek_tuple_pair (cv : CVariant) (level : CVariantLevel) (element : Char)
    (wf : Bool) (info : CVariantType) (chunk : List Nat) (level1 : CVariantLevel)
    (hok : ¬ (level.n_type < 1 ∨ level.type.headD '\x00' ≠ element ∨ level.index = 0))
    (henc : level.enclosing = '(' ∨ level.enclosing = '{')
    (hsig : c_variant_signature_next (level.type.take level.n_type) =
      SigResult.parsed info)
    (hdyn : info.size = 0)
    (halign : level.offset % 2 ^ info.alignment = 0) :
    (info.n_type = level.n_type →
      (level.index - 1) * 2 ^ level.wordsize ≤ level.size →
      (c_variant_peek cv level element wf).end_ =
        level.size - (level.index - 1) * 2 ^ level.wordsize) ∧
    (info.n_type ≠ level.n_type →
      c_variant_level_tail cv level ((level.index - 1) * 2 ^ level.wordsize) =
        (chunk, level1) →
      2 ^ level.wordsize ≤ chunk.length →
      (c_variant_peek cv level element wf).end_ =
        c_variant_word_fetch (chunk.drop (chunk.length - 2 ^ level.wordsize))
          level.wordsize) ∧
    ((c_variant_peek cv level element wf).size =
      if (c_variant_peek cv level element wf).end_ ≥ level.offset ∧
         (c_variant_peek cv level element wf).end_ ≤ level.size
      then (c_variant_peek cv level element wf).end_ - level.offset
      else 0) ∧
    ((c_variant_peek cv level element true).size = 0 →
      ((c_variant_peek cv level element true).front = none ↔
        level.size ≤ level.offset)) := by
-- proof
  have hpos : (0 : Nat) < 2 ^ info.alignment := pow_pos (by norm_num) _
  have ho0 : ALIGN_TO level.offset (2 ^ info.alignment) = level.offset :=
    ALIGN_TO_eq_self _ _ hpos halign
  have hlvl : ({ level with
      i_front := level.i_front +
        (ALIGN_TO level.offset (2 ^ info.alignment) - level.offset),
      offset := ALIGN_TO level.offset (2 ^ info.alignment) } : CVariantLevel) =
      level := by
    rw [ho0]
    simp only [Nat.sub_self, Nat.add_zero]
  have hgt : ¬ info.size > 0 := by omega
  have hv : ¬ level.enclosing = 'v' := by rcases henc with h | h <;> rw [h] <;> decide
  have hm : ¬ level.enclosing = 'm' := by rcases henc with h | h <;> rw [h] <;> decide
  have ha : ¬ level.enclosing = 'a' := by rcases henc with h | h <;> rw [h] <;> decide
  refine ⟨?_, ?_, ?_, ?_⟩
  · intro hlast hidx
    simp only [c_variant_peek, if_neg hok, hsig, hlvl, if_neg hgt, if_neg hv,
      if_neg hm, if_neg ha, if_pos henc, if_pos hlast, if_pos hidx]
  · intro hne htail hwz
    have hfld := c_variant_level_tail_fields cv level
      ((level.index - 1) * 2 ^ level.wordsize)
    rw [htail] at hfld
    simp only at hfld
    simp only [c_variant_peek, if_neg hok, hsig, hlvl, if_neg hgt, if_neg hv,
      if_neg hm, if_neg ha, if_pos henc, if_neg hne, htail, if_pos hwz,
      hfld.2.2.2.2.2.2.2.2]
  · by_cases h1 : info.n_type = level.n_type
    · by_cases h2 : (level.index - 1) * 2 ^ level.wordsize ≤ level.size
      · simp only [c_variant_peek, if_neg hok, hsig, hlvl, if_neg hgt, if_neg hv,
          if_neg hm, if_neg ha, if_pos henc, if_pos h1, if_pos h2]
      · simp only [c_variant_peek, if_neg hok, hsig, hlvl, if_neg hgt, if_neg hv,
          if_neg hm, if_neg ha, if_pos henc, if_pos h1, if_neg h2]
    · rcases htl : c_variant_level_tail cv level
          ((level.index - 1) * 2 ^ level.wordsize) with ⟨chunk2, level2⟩
      have hfld := c_variant_level_tail_fields cv level
        ((level.index - 1) * 2 ^ level.wordsize)
      rw [htl] at hfld
      simp only at hfld
      by_cases h3 : 2 ^ level.wordsize ≤ chunk2.length
      · simp only [c_variant_peek, if_neg hok, hsig, hlvl, if_neg hgt, if_neg hv,
          if_neg hm, if_neg ha, if_pos henc, if_neg h1, htl, if_pos h3,
          hfld.1, hfld.2.1]
      · simp only [c_variant_peek, if_neg hok, hsig, hlvl, if_neg hgt, if_neg hv,
          if_neg hm, if_neg ha, if_pos henc, if_neg h1, htl, if_neg h3,
          hfld.1, hfld.2.1]
  · intro hsz
    by_cases h1 : info.n_type = level.n_type
    · rcases hfr : c_variant_level_front cv level with ⟨p, fs, l3⟩
      have hiff := c_variant_level_front_none_iff cv level
      rw [hfr] at hiff
      simp only at hiff
      by_cases h2 : (level.index - 1) * 2 ^ level.wordsize ≤ level.size
      · simp only [c_variant_peek, if_neg hok, hsig, hlvl, if_neg hgt, if_neg hv,
          if_neg hm, if_neg ha, if_pos henc, if_pos h1, if_pos h2, hfr] at hsz ⊢
        rw [hsz]
        simp only [if_pos (Nat.zero_le fs)]
        exact hiff
      · simp only [c_variant_peek, if_neg hok, hsig, hlvl, if_neg hgt, if_neg hv,
          if_neg hm, if_neg ha, if_pos henc, if_pos h1, if_neg h2, hfr] at hsz ⊢
        rw [hsz]
        simp only [if_pos (Nat.zero_le fs)]
        exact hiff
    · rcases htl : c_variant_level_tail cv level
          ((level.index - 1) * 2 ^ level.wordsize) with ⟨chunk2, level2⟩
      have hfld := c_variant_level_tail_fields cv level
        ((level.index - 1) * 2 ^ level.wordsize)
      rw [htl] at hfld
      simp only at hfld
      rcases hfr : c_variant_level_front cv level2 with ⟨p, fs, l3⟩
      have hiff := c_variant_level_front_none_iff cv level2
      rw [hfr] at hiff
      simp only at hiff
      rw [hfld.1, hfld.2.1] at hiff
      by_cases h3 : 2 ^ level.wordsize ≤ chunk2.length
      · simp only [c_variant_peek, if_neg hok, hsig, hlvl, if_neg hgt, if_neg hv,
          if_neg hm, if_neg ha, if_pos henc, if_neg h1, htl, if_pos h3,
          hfr] at hsz ⊢
        rw [hsz]
        simp only [if_pos (Nat.zero_le fs)]
        exact hiff
      · simp only [c_variant_peek, if_neg hok, hsig, hlvl, if_neg hgt, if_neg hv,
          if_neg hm, if_neg ha, if_pos henc, if_neg h1, htl, if_neg h3,
          hfr] at hsz ⊢
        rw [hsz]
        simp only [if_pos (Nat.zero_le fs)]
        exact hiff

/-- Witness for c5_peek_tuple_pair: a dynamic 's' that is the last type of
a tuple frame of size 10 with index 2 and wordsize 0 ends at offset
10 - (2-1)*1 = 9. -/
theorem c5_peek_tuple_pair_witness :
    (c_variant_peek ⟨[[0, 0, 0, 0, 0, 0, 0, 0, 0, 0]], 0⟩
        ⟨10, 10, 0, 0, '(', 1, 0, 5, 2, 5, ['s']⟩ 's' true).end_ = 9 :=
  (c5_peek_tuple_pair ⟨[[0, 0, 0, 0, 0, 0, 0, 0, 0, 0]], 0⟩
      ⟨10, 10, 0, 0, '(', 1, 0, 5, 2, 5, ['s']⟩ 's' true ⟨0, 0, 0, 0, 1, ['s']⟩ []
      ⟨10, 10, 0, 0, '(', 1, 0, 5, 2, 5, ['s']⟩
      (by decide) (Or.inl rfl) rfl rfl (by decide)).1 rfl (by decide)

theorem variantTailScanFrom_no_nul (tail : List Nat) :
    ∀ n i, tail.length - i ≤ n →
      (∀ j, i ≤ j → j < tail.length → tail.getD (tail.length - j - 1) 1 ≠ 0) →
      variantTailScanFrom tail i = max i tail.length := by
  intro n
  induction n with
  | zero =>
    intro i hn _
    rw [variantTailScanFrom, dif_neg (by omega)]
    omega
  | succ n ih =>
    intro i hn h
    rw [variantTailScanFrom]
    by_cases hi : i < tail.length
    · rw [dif_pos hi, if_neg (h i le_rfl hi),
        ih (i + 1) (by omega) (fun j hj hjl => h j (by omega) hjl)]
      omega
    · rw [dif_neg hi]
      omega

theorem variantTailScanFrom_found (tail : List Nat) :
    ∀ n i k, k - i ≤ n → i ≤ k → k < tail.length →
      tail.getD (tail.length - k - 1) 1 = 0 →
      (∀ j, i ≤ j → j < k → tail.getD (tail.length - j - 1) 1 ≠ 0) →
      variantTailScanFrom tail i = k := by
  intro n
  induction n with
  | zero =>
    intro i k hn hik hk hz _
    have hik' : i = k := by omega
    subst hik'
    rw [variantTailScanFrom, dif_pos hk, if_pos hz]
  | succ n ih =>
    intro i k hn hik hk hz hmiss
    by_cases heq : i = k
    · subst heq
      rw [variantTailScanFrom, dif_pos hk, if_pos hz]
    · have hlt : i < k := by omega
      rw [variantTailScanFrom, dif_pos (by omega),
        if_neg (hmiss i le_rfl hlt)]
      exact ih (i + 1) k (by omega) (by omega) hk hz
        (fun j hj hjk => hmiss j (by omega) hjk)

/-- C4: when the reader enters a 'v' element, the tail chunk of the child
level is scanned backwards for the last NUL byte strictly before the final
byte; the bytes after that NUL are the candidate child type string,
validated with c_variant_signature_one.  If no such NUL exists, or the
candidate is not exactly one valid type, the entered child gets the unit
type "()" with length 2 and index 1 instead of an error; if the candidate
validates, the child level gets that type string, its length, and index
size - length. -/
theorem c4_enter_variant_child (tail : List Nat) (next : CVariantLevel)
    (hidx : next.index = 0) (hts : tail.length ≤ next.size) :
    ((∀ p, p + 1 < tail.length → tail.getD p 1 ≠ 0) →
      enterVariantChild tail next =
        { next with type := '(' :: ')' :: [], n_type := 2, index := 1 }) ∧
    (∀ p, p + 1 < tail.length → tail.getD p 1 = 0 →
      (∀ q, p < q → q + 1 < tail.length → tail.getD q 1 ≠ 0) →
      ((∃ info, c_variant_signature_one ((tail.drop (p + 1)).map Char.ofNat) =
          Except.ok info) →
        enterVariantChild tail next =
          { next with type := (tail.drop (p + 1)).map Char.ofNat,
                      n_type := tail.length - 1 - p,
                      index := next.size - (tail.length - 1 - p) }) ∧
      ((∀ info, c_variant_signature_one ((tail.drop (p + 1)).map Char.ofNat) ≠
          Except.ok info) →
        enterVariantChild tail next =
          { next with type := '(' :: ')' :: [], n_type := 2, index := 1 })) := by
  constructor
  · intro ha
    have hscan : variantTailScan tail = max 1 tail.length := by
      rw [variantTailScan]
      apply variantTailScanFrom_no_nul tail (tail.length - 1) 1 (by omega)
      intro j h1 h2
      have hp : (tail.length - j - 1) + 1 < tail.length := by omega
      exact ha _ hp
    simp only [enterVariantChild, hscan,
      if_neg (show ¬ (max 1 tail.length < tail.length) by omega), if_pos hidx]
  · intro p hp hz hmax
    have h1k : 1 ≤ tail.length - 1 - p := by omega
    have hkts : tail.length - 1 - p < tail.length := by omega
    have hscan : variantTailScan tail = tail.length - 1 - p := by
      rw [variantTailScan]
      apply variantTailScanFrom_found tail (tail.length - 1 - p) 1
        (tail.length - 1 - p) (by omega) h1k hkts
      · have hq : tail.length - (tail.length - 1 - p) - 1 = p := by omega
        rw [hq]
        exact hz
      · intro j hj1 hjk
        have hqp : p < tail.length - j - 1 := by omega
        have hq1 : (tail.length - j - 1) + 1 < tail.length := by omega
        exact hmax _ hqp hq1
    have hdropeq : tail.length - (tail.length - 1 - p) = p + 1 := by omega
    constructor
    · rintro ⟨info, hok⟩
      simp only [enterVariantChild, hscan, if_pos hkts, hdropeq, hok,
        if_neg (show ¬ (next.size - (tail.length - 1 - p) = 0) by omega)]
    · intro hfail
      rcases hres : c_variant_signature_one ((tail.drop (p + 1)).map Char.ofNat)
        with e | info
      · simp only [enterVariantChild, hscan, if_pos hkts, hdropeq, hres,
          if_pos hidx]
      · exact absurd hres (hfail info)

/-- Witness for c4_enter_variant_child: the tail bytes ['u', NUL, 'u'] of a
6-byte variant child; the last NUL is at position 1, the byte after it is
the valid type "u", so the child level becomes type "u" with length 1 and
index 6 - 1 = 5. -/
theorem c4_enter_variant_child_witness :
    enterVariantChild [117, 0, 117] ⟨6, 6, 0, 0, 'v', 1, 0, 0, 0, 0, ['u']⟩ =
      { (⟨6, 6, 0, 0, 'v', 1, 0, 0, 0, 0, ['u']⟩ : CVariantLevel) with
        type := ([117, 0, 117].drop 2).map Char.ofNat, n_type := 1, index := 5 } :=
  ((c4_enter_variant_child [117, 0, 117] ⟨6, 6, 0, 0, 'v', 1, 0, 0, 0, 0, ['u']⟩
      rfl (by norm_num)).2 1 (by norm_num) rfl
      (by intro q h1 h2; simp at h2; omega)).1
    ⟨⟨2, 4, 0, 0, 1, [Char.ofNat 117]⟩, rfl⟩
